import Mathlib

/-!
Verification of `generate_api_key.py`: a command-line tool that prints a
random alphanumeric API key of a requested length, optionally prefixed.

The random source (`secrets.choice` over a 62-character alphabet) is
embedded as an explicit choice oracle `Nat → Fin 62`: the oracle gives, for
each draw, the index of the chosen alphabet character.  All functional
properties are proved for every oracle, which captures the support of the
distribution (length and alphabet membership of the output) without
probabilistic reasoning.
-/

/-- Embedding of Python `string.ascii_lowercase`. -/
def ascii_lowercase : List Char := "abcdefghijklmnopqrstuvwxyz".toList

/-- Embedding of Python `string.ascii_uppercase`. -/
def ascii_uppercase : List Char := "ABCDEFGHIJKLMNOPQRSTUVWXYZ".toList

/-- Embedding of Python `string.ascii_letters` (lowercase then uppercase). -/
def ascii_letters : List Char := ascii_lowercase ++ ascii_uppercase

/-- Embedding of Python `string.digits`. -/
def string_digits : List Char := "0123456789".toList

/-- The alphabet built on line 8 of the source:
`string.ascii_letters + string.digits`. -/
def alphabet : List Char := ascii_letters ++ string_digits

theorem alphabet_length_eq : alphabet.length = 62 := by decide

/-- Embedding of `generate_api_key(length)` (source lines 6-10).  The Python
`range(length)` over an `int` argument yields `max length 0` iterations, which
is `Int.toNat length`; each iteration draws one character of `alphabet` via
`secrets.choice`, embedded as the oracle `choice`. -/
def generate_api_key (length : Int) (choice : Nat → Fin 62) : String :=
  String.mk ((List.range length.toNat).map
    (fun i => alphabet.get (Fin.cast alphabet_length_eq.symm (choice i))))

/-- The two command-line options of the tool, with `prefixStr` standing for
the Python attribute `args.prefix` (`prefix` is a reserved word in Lean). -/
structure Options where
  length : Int
  prefixStr : String
deriving DecidableEq, Repr

/-- The parser defaults declared by `parser.add_argument` (source
lines 14-17): `--length` defaults to 32 and `--prefix` to the empty
string. -/
def defaultOptions : Options := { length := 32, prefixStr := "" }

/-- Result of command-line parsing: parsed options, a help request
(argparse's automatic `-h`), or a parse error with its message. -/
inductive ParseResult where
  | ok : Options → ParseResult
  | help : ParseResult
  | error : String → ParseResult
deriving DecidableEq, Repr

/-- A nonempty all-digit string evaluated as a number, `none` otherwise. -/
def digitsVal? : List Char → Option Nat
  | [] => none
  | [c] => if c.isDigit then some (c.toNat - 48) else none
  | c :: cs =>
    if c.isDigit then
      (digitsVal? cs).map (fun n => (c.toNat - 48) * 10 ^ cs.length + n)
    else none

/-- Embedding of the `type=int` conversion argparse applies to the value of
`--length`: Python `int(s)` on an optional sign followed by decimal digits.
(The exotic accepted forms — surrounding whitespace, underscore digit
separators — are not modelled.) -/
def pyInt? (s : String) : Option Int :=
  match s.toList with
  | [] => none
  | c :: cs =>
    if c = '-' then (digitsVal? cs).map (fun n => -(n : Int))
    else if c = '+' then (digitsVal? cs).map (fun n => (n : Int))
    else (digitsVal? (c :: cs)).map (fun n => (n : Int))

/-- Embedding of the argparse parsing loop configured on source lines 13-19:
the recognised flags are `-l`/`--length` (with an integer value), `-p`/
`--prefix` (with a string value), and the automatic `-h`/`--help`; any other
token is rejected.  (Argparse extras such as `--length=N`, flag
abbreviations and option/value fusion are not modelled; the claims quantify
over the parse result, not over those spellings.) -/
def parseArgs : List String → Options → ParseResult
  | [], opts => .ok opts
  | arg :: rest, opts =>
    if arg = "-h" ∨ arg = "--help" then .help
    else if arg = "-l" ∨ arg = "--length" then
      match rest with
      | [] => .error ("argument -l/--length: expected one argument")
      | v :: rest2 =>
        match pyInt? v with
        | some n => parseArgs rest2 { opts with length := n }
        | none => .error ("argument -l/--length: invalid int value: " ++ v)
    else if arg = "-p" ∨ arg = "--prefix" then
      match rest with
      | [] => .error ("argument -p/--prefix: expected one argument")
      | v :: rest2 => parseArgs rest2 { opts with prefixStr := v }
    else .error ("unrecognized arguments: " ++ arg)

/-- One externally visible action of the process.  The constructors beyond
the two standard streams are there so the frame claim can state that those
effects never occur. -/
inductive Effect where
  | writeStdout : String → Effect
  | writeStderr : String → Effect
  | writeFile : String → String → Effect
  | networkCall : String → Effect
  | setEnv : String → String → Effect
deriving DecidableEq, Repr

/-- Observable outcome of one process invocation. -/
structure RunResult where
  exitCode : Nat
  stdout : String
  stderr : String
  effects : List Effect
deriving DecidableEq, Repr

/-- The usage line argparse prints before an error message. -/
def usageLine : String :=
  "usage: generate_api_key.py [-h] [-l LENGTH] [-p PREFIX]\n"

/-- The help text printed by the automatic `-h` flag. -/
def helpText : String :=
  usageLine ++ "\nGenerate a secure API key\n"

/-- Embedding of the `__main__` block (source lines 12-22): parse the
arguments, then print `args.prefix + generate_api_key(args.length)` followed
by a newline on standard output and exit 0.  On a parse error argparse
prints usage and the error on standard error and exits with status 2; on
`-h` it prints the help text on standard output and exits with status 0. -/
def pyMain (argv : List String) (choice : Nat → Fin 62) : RunResult :=
  match parseArgs argv defaultOptions with
  | .ok opts =>
    let key := opts.prefixStr ++ generate_api_key opts.length choice
    { exitCode := 0, stdout := key ++ "\n", stderr := ""
      effects := [.writeStdout (key ++ "\n")] }
  | .help =>
    { exitCode := 0, stdout := helpText, stderr := ""
      effects := [.writeStdout helpText] }
  | .error msg =>
    let err := usageLine ++ "generate_api_key.py: error: " ++ msg ++ "\n"
    { exitCode := 2, stdout := "", stderr := err
      effects := [.writeStderr err] }

/-- A fixed oracle used by concrete witnesses: every draw picks index 0. -/
def czero : Nat → Fin 62 := fun _ => ⟨0, by decide⟩

theorem generate_length (length : Int) (choice : Nat → Fin 62) :
    (generate_api_key length choice).length = length.toNat := by
  simp [generate_api_key, String.length]

theorem generate_mem_alphabet (length : Int) (choice : Nat → Fin 62) :
    ∀ c ∈ (generate_api_key length choice).toList, c ∈ alphabet := by
  intro c hc
  simp only [generate_api_key, String.toList, List.mem_map] at hc
  obtain ⟨i, _, rfl⟩ := hc
  exact alphabet.get_mem _ _

/-- Claim C1: for every non-negative integer `length`, `generate(length)`
returns a string of exactly `length` characters, each a member of the
62-character alphanumeric alphabet. -/
theorem generate_spec (length : Int) (choice : Nat → Fin 62)
    (h : 0 ≤ length) :
    ((generate_api_key length choice).length : Int) = length ∧
    ∀ c ∈ (generate_api_key length choice).toList, c ∈ alphabet := by
  refine ⟨?_, generate_mem_alphabet length choice⟩
  rw [generate_length]
  exact_mod_cast Int.toNat_of_nonneg h

/-- Witness for C1 at `length = 3`. -/
theorem generate_spec_witness :
    ((generate_api_key 3 czero).length : Int) = 3 ∧
    ∀ c ∈ (generate_api_key 3 czero).toList, c ∈ alphabet :=
  generate_spec 3 czero (by decide)

/-- Claim C2: on a successful parse with non-negative length, the program
writes exactly `prefix ++ generate(length)` followed by one newline to
standard output, exits 0, and writes nothing to standard error. -/
theorem run_writes_prefixed_key (argv : List String) (opts : Options)
    (choice : Nat → Fin 62)
    (hparse : parseArgs argv defaultOptions = ParseResult.ok opts)
    (_hlen : 0 ≤ opts.length) :
    pyMain argv choice =
      { exitCode := 0
        stdout := opts.prefixStr ++ generate_api_key opts.length choice ++ "\n"
        stderr := ""
        effects := [Effect.writeStdout
          (opts.prefixStr ++ generate_api_key opts.length choice ++ "\n")] } := by
  simp [pyMain, hparse, String.append_assoc]

/-- Witness for C2: `-l 8 -p sk_` prints `sk_` plus an 8-character key. -/
theorem run_writes_prefixed_key_witness :
    pyMain ["-l", "8", "-p", "sk_"] czero =
      { exitCode := 0
        stdout := "sk_" ++ generate_api_key 8 czero ++ "\n"
        stderr := ""
        effects := [Effect.writeStdout
          ("sk_" ++ generate_api_key 8 czero ++ "\n")] } :=
  run_writes_prefixed_key _ { length := 8, prefixStr := "sk_" } czero
    (by decide) (by decide)

/-- Claim C3: `generate(0)` is the empty string, and with length 0 the
output line is the prefix alone followed by the newline. -/
theorem generate_zero_prefix_alone (argv : List String) (opts : Options)
    (choice : Nat → Fin 62)
    (hparse : parseArgs argv defaultOptions = ParseResult.ok opts)
    (hlen : opts.length = 0) :
    generate_api_key opts.length choice = "" ∧
    (pyMain argv choice).stdout = opts.prefixStr ++ "\n" := by
  have hg : generate_api_key opts.length choice = "" := by
    rw [hlen]; rfl
  refine ⟨hg, ?_⟩
  simp [pyMain, hparse, hg]

/-- Witness for C3: `--length 0 --prefix pk` prints `pk` alone. -/
theorem generate_zero_prefix_alone_witness :
    generate_api_key (0 : Int) czero = "" ∧
    (pyMain ["--length", "0", "--prefix", "pk"] czero).stdout = "pk" ++ "\n" :=
  generate_zero_prefix_alone _ { length := 0, prefixStr := "pk" } czero
    (by decide) (by decide)

theorem generate_of_nonpos (length : Int) (choice : Nat → Fin 62)
    (h : length ≤ 0) : generate_api_key length choice = "" := by
  have ht : length.toNat = 0 := Int.toNat_of_nonpos h
  simp only [generate_api_key, ht, List.range_zero, List.map_nil]

/-- Claim C4: for every negative length the program follows the second of
the two allowed behaviors — it clamps the length to zero, producing an
empty random segment (`range` over a negative bound is empty), rather than
rejecting the input. -/
theorem negative_length_clamps (length : Int) (choice : Nat → Fin 62)
    (h : length < 0) :
    generate_api_key length choice = generate_api_key 0 choice ∧
    generate_api_key length choice = "" := by
  rw [generate_of_nonpos length choice h.le, generate_of_nonpos 0 choice le_rfl]
  exact ⟨rfl, rfl⟩

/-- Witness for C4 at `length = -5`. -/
theorem negative_length_clamps_witness :
    generate_api_key (-5 : Int) czero = generate_api_key 0 czero ∧
    generate_api_key (-5 : Int) czero = "" :=
  negative_length_clamps (-5) czero (by decide)

/-- Claim C5: a parsed negative length is neither rejected nor reported:
`generate` returns the empty string without error and the process prints
the prefix alone followed by a newline, exiting with status 0. -/
theorem negative_length_silent (argv : List String) (opts : Options)
    (choice : Nat → Fin 62)
    (hparse : parseArgs argv defaultOptions = ParseResult.ok opts)
    (hneg : opts.length < 0) :
    generate_api_key opts.length choice = "" ∧
    pyMain argv choice =
      { exitCode := 0, stdout := opts.prefixStr ++ "\n", stderr := ""
        effects := [Effect.writeStdout (opts.prefixStr ++ "\n")] } := by
  have hg : generate_api_key opts.length choice = "" :=
    generate_of_nonpos opts.length choice hneg.le
  refine ⟨hg, ?_⟩
  simp [pyMain, hparse, hg]

/-- Witness for C5: `-l -5` prints an empty line and exits 0. -/
theorem negative_length_silent_witness :
    generate_api_key (-5 : Int) czero = "" ∧
    pyMain ["-l", "-5"] czero =
      { exitCode := 0, stdout := "" ++ "\n", stderr := ""
        effects := [Effect.writeStdout ("" ++ "\n")] } :=
  negative_length_silent _ { length := -5, prefixStr := "" } czero
    (by decide) (by decide)

/-- Claim C6: on malformed or unknown command-line input the process exits
non-zero (argparse uses 2), prints the usage and error message on standard
error and nothing on standard output; and every successful parse exits with
status 0. -/
theorem parse_error_exits_nonzero (argv : List String) (choice : Nat → Fin 62)
    (msg : String)
    (h : parseArgs argv defaultOptions = ParseResult.error msg) :
    (pyMain argv choice).exitCode ≠ 0 ∧
    (pyMain argv choice).stdout = "" ∧
    (pyMain argv choice).stderr =
      usageLine ++ "generate_api_key.py: error: " ++ msg ++ "\n" ∧
    ∀ argv2 opts choice2, parseArgs argv2 defaultOptions = ParseResult.ok opts →
      (pyMain argv2 choice2).exitCode = 0 := by
  refine ⟨?_, ?_, ?_, ?_⟩
  · simp [pyMain, h]
  · simp [pyMain, h]
  · simp [pyMain, h, String.append_assoc]
  · intro argv2 opts choice2 h2
    simp [pyMain, h2]

/-- Witness for C6: `--length abc` is rejected with exit status 2. -/
theorem parse_error_exits_nonzero_witness :
    (pyMain ["--length", "abc"] czero).exitCode ≠ 0 ∧
    (pyMain ["--length", "abc"] czero).stdout = "" ∧
    (pyMain ["--length", "abc"] czero).stderr =
      usageLine ++ "generate_api_key.py: error: " ++
        "argument -l/--length: invalid int value: abc" ++ "\n" ∧
    ∀ argv2 opts choice2, parseArgs argv2 defaultOptions = ParseResult.ok opts →
      (pyMain argv2 choice2).exitCode = 0 :=
  parse_error_exits_nonzero ["--length", "abc"] czero
    "argument -l/--length: invalid int value: abc" (by decide)

/-- Claim C7: with no options the parse yields the defaults, length 32 and
empty prefix, and the default invocation prints one line that matches
`[A-Za-z0-9]` at each of its 32 positions. -/
theorem default_invocation (choice : Nat → Fin 62) :
    parseArgs [] defaultOptions = ParseResult.ok { length := 32, prefixStr := "" } ∧
    (pyMain [] choice).stdout = generate_api_key 32 choice ++ "\n" ∧
    (generate_api_key 32 choice).length = 32 ∧
    ∀ c ∈ (generate_api_key 32 choice).toList, c ∈ alphabet := by
  refine ⟨rfl, ?_, ?_, generate_mem_alphabet 32 choice⟩
  · simp [pyMain, parseArgs, defaultOptions]
  · rw [generate_length]; rfl

/-- Claim C8: the alphabet is a fixed constant list of 62 distinct
characters, and membership in it is exactly membership in the ASCII
uppercase range (codes 65-90), the ASCII lowercase range (codes 97-122) or
the digit range (codes 48-57). -/
theorem alphabet_is_alphanumeric :
    alphabet.length = 62 ∧ alphabet.Nodup ∧
    ∀ c : Char, c ∈ alphabet ↔
      ((65 ≤ c.toNat ∧ c.toNat ≤ 90) ∨ (97 ≤ c.toNat ∧ c.toNat ≤ 122) ∨
       (48 ≤ c.toNat ∧ c.toNat ≤ 57)) := by
  refine ⟨by decide, by decide, fun c => ⟨?_, ?_⟩⟩
  · intro hc
    have hall : alphabet.all (fun c => decide
        ((65 ≤ c.toNat ∧ c.toNat ≤ 90) ∨ (97 ≤ c.toNat ∧ c.toNat ≤ 122) ∨
         (48 ≤ c.toNat ∧ c.toNat ≤ 57))) = true := by decide
    simpa using List.all_eq_true.mp hall c hc
  · intro hc
    have hofn := Char.ofNat_toNat c
    set n := c.toNat with hn
    rcases hc with ⟨h1, h2⟩ | ⟨h1, h2⟩ | ⟨h1, h2⟩ <;>
      (rw [← hofn]; interval_cases n <;> decide)

/-- Claim C10: on any successful run the only effect of the process is
writing the single output line to standard output: no file write, no
network call, no environment mutation. -/
theorem frame_only_stdout (argv : List String) (opts : Options)
    (choice : Nat → Fin 62)
    (hparse : parseArgs argv defaultOptions = ParseResult.ok opts) :
    (pyMain argv choice).effects =
      [Effect.writeStdout ((pyMain argv choice).stdout)] ∧
    ∀ e ∈ (pyMain argv choice).effects,
      (∀ p d, e ≠ Effect.writeFile p d) ∧ (∀ u, e ≠ Effect.networkCall u) ∧
      (∀ k v, e ≠ Effect.setEnv k v) := by
  refine ⟨by simp [pyMain, hparse], ?_⟩
  intro e he
  simp only [pyMain, hparse] at he
  simp only [List.mem_singleton] at he
  subst he
  exact ⟨fun p d => by simp, fun u => by simp, fun k v => by simp⟩

/-- Witness for C10 on the default invocation. -/
theorem frame_only_stdout_witness :
    (pyMain [] czero).effects =
      [Effect.writeStdout ((pyMain [] czero).stdout)] ∧
    ∀ e ∈ (pyMain [] czero).effects,
      (∀ p d, e ≠ Effect.writeFile p d) ∧ (∀ u, e ≠ Effect.networkCall u) ∧
      (∀ k v, e ≠ Effect.setEnv k v) :=
  frame_only_stdout [] defaultOptions czero (by decide)
